import Mathlib

/-!
Shallow embedding of the image-enhancer orchestration code
(`src/temporalized/workflows.py`, `src/temporalized/run_workflow.py`,
`src/temporalized/start_workers.py`) and proofs of the spec claims about it.

External collaborators (the Temporal durable-execution substrate, the S3 and
OpenAI clients, `json.loads`, the asyncio event loop and OS processes) are
modelled as oracles/parameters: each activity call is an environment-supplied
outcome, `json.loads` is an oracle argument, the asyncio semaphore and the
process supervisor become explicit transition systems.  Wall-clock timing
fields (durations) are outside the embedding.
-/

namespace ImageEnhancer

/-! ## Data model (activities.py) -/

/-- The `S3Location` dataclass from activities.py. -/
structure S3Location where
  bucket : String
  key : String
deriving Repr, DecidableEq

/-- A Python exception value as seen by the orchestration code.  `typeName`
is the exception class name (`type(e).__name__`), `msg` is `str(e)`.
`isBaseOnly` marks exceptions that derive from `BaseException` but not from
`Exception` (e.g. `asyncio.CancelledError`), which `except Exception`
clauses do not catch.  Workflow cancellation surfaces as such a value. -/
structure PyErr where
  typeName : String
  msg : String
  isBaseOnly : Bool
deriving Repr, DecidableEq

/-- The `temporalio.common.RetryPolicy` value; intervals in milliseconds, the backoff
coefficient 2.0 of the source is the exact natural number 2.
`maximumIntervalMs = none` means the field was left at the SDK default. -/
structure RetryPolicy where
  initialIntervalMs : Nat
  backoffCoefficient : Nat
  maximumIntervalMs : Option Nat
  maximumAttempts : Nat
deriving Repr, DecidableEq

/-! ## Workflow embedding (workflows.py, `ImageEnhancementWorkflow.run`) -/

/-- The retry policy built at workflows.py lines 53-58: initial interval 1 s,
backoff coefficient 2.0, maximum interval 5 min, maximum 3 attempts.  It is
passed to the download, enhance and upload activity executions. -/
def retry_policy : RetryPolicy :=
  { initialIntervalMs := 1000
    backoffCoefficient := 2
    maximumIntervalMs := some 300000
    maximumAttempts := 3 }

/-- The `RetryPolicy(maximum_attempts=1)` built for each cleanup activity
execution (workflows.py lines 108 and 119); the other fields are the SDK
defaults (initial interval 1 s, coefficient 2.0, maximum interval unset). -/
def cleanup_retry_policy : RetryPolicy :=
  { initialIntervalMs := 1000
    backoffCoefficient := 2
    maximumIntervalMs := none
    maximumAttempts := 1 }

/-- Observable events of one workflow run, in program order. -/
inductive WfEvent where
  /-- A `workflow.execute_activity` call for one of the three main steps. -/
  | activityStart (name : String) (policy : RetryPolicy)
  /-- A `workflow.execute_activity(cleanup_temp_file, args=[path], ...)` call. -/
  | cleanupCall (path : String) (policy : RetryPolicy)
  /-- A `workflow.logger.warning(...)` call for a failed cleanup. -/
  | warn (msg : String)
  /-- The terminal result (return value or re-raised error) is reported to
  the caller. -/
  | terminal (result : Except PyErr String)
deriving Repr

/-- Environment-supplied outcomes of the four activities, as delivered to
the workflow by the durable-execution substrate (each already includes that
substrate's own retrying; the workflow only sees the final outcome).  A
cancelled step is an `.error` whose `PyErr` is cancellation-classified. -/
structure ActivityBehavior where
  download : Except PyErr String
  enhance : String → Except PyErr String
  upload : String → Except PyErr Unit
  cleanup : String → Except PyErr Unit

/-- The success message returned at workflows.py line 95. -/
def successMessage (src dst : S3Location) : String :=
  "Successfully processed image: s3://" ++ src.bucket ++ "/" ++ src.key ++
    " -> s3://" ++ dst.bucket ++ "/" ++ dst.key

/-- One guarded cleanup block from the `finally:` clause (workflows.py
lines 102-111 resp. 113-122): `if path:` (Python truthiness — skipped when
the variable is still `None` or an empty string), execute the cleanup
activity with a non-retrying policy; `except Exception` turns a failure
into a warning log — but a `BaseException`-only failure (e.g.
`asyncio.CancelledError` on workflow cancellation) is not caught and
escapes the block.  Returns the events of the block together with the
escaped exception, if any. -/
def cleanup_one (env : ActivityBehavior) (label : String) (pathVar : Option String) :
    List WfEvent × Option PyErr :=
  match pathVar with
  | none => ([], none)
  | some p =>
    if p = "" then ([], none)
    else
      match env.cleanup p with
      | .ok _ => ([.cleanupCall p cleanup_retry_policy], none)
      | .error e =>
          if e.isBaseOnly then
            ([.cleanupCall p cleanup_retry_policy], some e)
          else
            ([.cleanupCall p cleanup_retry_policy,
              .warn ("Failed to cleanup " ++ label ++ " temp file: " ++ e.msg)],
             none)

/-- The whole `finally:` block: clean the original then the enhanced file.
An exception escaping the first block aborts the rest of the `finally:`
body — the enhanced file's cleanup is then never attempted — and
propagates out of the block. -/
def finally_run (env : ActivityBehavior) (orig enh : Option String) :
    List WfEvent × Option PyErr :=
  match cleanup_one env "original" orig with
  | (ev1, some e) => (ev1, some e)
  | (ev1, none) =>
      match cleanup_one env "enhanced" enh with
      | (ev2, esc) => (ev1 ++ ev2, esc)

/-- Outcome of the `try:` body: the two path variables as assigned so far,
the events emitted, and the pending result (return value or exception). -/
structure TryOut where
  original : Option String
  enhanced : Option String
  events : List WfEvent
  result : Except PyErr String

/-- The `try:` body of `ImageEnhancementWorkflow.run` (workflows.py lines
63-95): download, then enhance, then upload, each via
`workflow.execute_activity` with `retry_policy`; the first failing step
aborts the body with that exception (the `except` clause only logs and
re-raises). -/
def tryPhase (env : ActivityBehavior) (src dst : S3Location) : TryOut :=
  match env.download with
  | .error e =>
      { original := none, enhanced := none
        events := [.activityStart "download_image_from_s3" retry_policy]
        result := .error e }
  | .ok orig =>
    match env.enhance orig with
    | .error e =>
        { original := some orig, enhanced := none
          events := [.activityStart "download_image_from_s3" retry_policy,
                     .activityStart "enhance_image_with_openai" retry_policy]
          result := .error e }
    | .ok enh =>
      match env.upload enh with
      | .error e =>
          { original := some orig, enhanced := some enh
            events := [.activityStart "download_image_from_s3" retry_policy,
                       .activityStart "enhance_image_with_openai" retry_policy,
                       .activityStart "upload_image_to_s3" retry_policy]
            result := .error e }
      | .ok _ =>
          { original := some orig, enhanced := some enh
            events := [.activityStart "download_image_from_s3" retry_policy,
                       .activityStart "enhance_image_with_openai" retry_policy,
                       .activityStart "upload_image_to_s3" retry_policy]
            result := .ok (successMessage src dst) }

/-- The method `ImageEnhancementWorkflow.run` (workflows.py lines 34-122): the `try:`
body, then the `finally:` cleanup block, then the terminal result is
reported (returned or re-raised) to the caller.  By Python semantics an
exception escaping the `finally:` block replaces the pending return value
or in-flight exception as the terminal result.  Returns the full event
trace together with the terminal result. -/
def ImageEnhancementWorkflow.run (env : ActivityBehavior) (src dst : S3Location) :
    List WfEvent × Except PyErr String :=
  let t := tryPhase env src dst
  let f := finally_run env t.original t.enhanced
  let result :=
    match f.2 with
    | some e => Except.error e
    | none => t.result
  (t.events ++ f.1 ++ [.terminal result], result)

/-- The cleanup invocations (paths, in order) appearing in a trace. -/
def cleanupCalls (events : List WfEvent) : List String :=
  events.filterMap fun e =>
    match e with
    | .cleanupCall p _ => some p
    | _ => none

/-- The retry policies attached to the cleanup invocations of a trace. -/
def cleanupPolicies (events : List WfEvent) : List RetryPolicy :=
  events.filterMap fun e =>
    match e with
    | .cleanupCall _ pol => some pol
    | _ => none

/-- The artifact handles registered for cleanup before the workflow's exit,
in registration order: the downloaded original file (registered by the
assignment at line 68 when the download succeeds) and, if created, the
enhanced file (assignment at line 77).  An empty path is no handle (the
`finally:` block guards on Python truthiness). -/
def registeredHandles (env : ActivityBehavior) : List String :=
  match env.download with
  | .error _ => []
  | .ok orig =>
    (if orig = "" then [] else [orig]) ++
      (match env.enhance orig with
       | .error _ => []
       | .ok enh => if enh = "" then [] else [enh])

/-! ## StepExecutor (the durable-execution substrate's retry loop)

The retry loop itself lives in the Temporal substrate (declared out of the
repository's sources); only the `RetryPolicy` values above are source code.
The executor is therefore modelled from the spec. -/

/-- Modelled from the spec: the TerminalError produced by the StepExecutor
after the final failed attempt carries the step name, the attempt count and
the last underlying error (spec 4.1); the executor itself is part of the
durable-execution substrate and is not in src/. -/
structure TerminalError where
  stepName : String
  attempts : Nat
  lastError : String
deriving Repr, DecidableEq

/-- Modelled from the spec: the sleep before the next attempt,
`min(initialInterval * coefficient^(attempt-1), maxInterval)` (spec 4.1). -/
def backoffSleep (policy : RetryPolicy) (attempt : Nat) : Nat :=
  let raw := policy.initialIntervalMs * policy.backoffCoefficient ^ (attempt - 1)
  match policy.maximumIntervalMs with
  | some m => min raw m
  | none => raw

/-- Modelled from the spec: the StepExecutor attempt loop from attempt
number `attempt` on, with enough fuel for the remaining attempts.  The
operation receives the attempt number; a failed attempt (which includes a
timed-out one) is retried while `attempt < maximumAttempts`.  Returns the
list of attempt numbers at which the operation was invoked together with
the outcome. -/
def executeStepFrom (stepName : String) (policy : RetryPolicy)
    (operation : Nat → Except String α) (attempt fuel : Nat) :
    List Nat × Except TerminalError α :=
  match fuel with
  | 0 => ([], .error ⟨stepName, 0, "no attempts"⟩)
  | fuel + 1 =>
    match operation attempt with
    | .ok v => ([attempt], .ok v)
    | .error err =>
      if attempt < policy.maximumAttempts then
        let rest := executeStepFrom stepName policy operation (attempt + 1) fuel
        (attempt :: rest.1, rest.2)
      else ([attempt], .error ⟨stepName, attempt, err⟩)

/-- Modelled from the spec:
`execute(stepName, operation, retryPolicy)` — invokes the operation at most
`maximumAttempts` times, starting at attempt 1 (spec 4.1). -/
def executeStep (stepName : String) (policy : RetryPolicy)
    (operation : Nat → Except String α) : List Nat × Except TerminalError α :=
  executeStepFrom stepName policy operation 1 policy.maximumAttempts

/-! ## parse_image_list (run_workflow.py lines 57-101) -/

/-- Python `str.isspace` characters in the ASCII range (what `str.strip()`
removes at either end). -/
def pyIsSpace (c : Char) : Bool :=
  c = ' ' || c = '\t' || c = '\n' || c = '\r' ||
    c = Char.ofNat 11 || c = Char.ofNat 12

/-- Python `key.strip()`. -/
def pyStrip (s : String) : String :=
  String.mk (((s.toList.dropWhile pyIsSpace).reverse.dropWhile pyIsSpace).reverse)

/-- Python `os.path.basename` on POSIX: everything after the last slash. -/
def pyBasename (p : String) : String :=
  String.mk ((p.toList.reverse.takeWhile (fun c => c ≠ '/')).reverse)

/-- Python `os.path.dirname` on POSIX: `p` up to the last slash, with
trailing slashes stripped unless the head is all slashes. -/
def pyDirname (p : String) : String :=
  let head := ((p.toList.reverse.dropWhile (fun c => c ≠ '/')).reverse)
  if head.isEmpty then ""
  else if head.all (fun c => c = '/') then String.mk head
  else String.mk ((head.reverse.dropWhile (fun c => c = '/')).reverse)

/-- Python `str.split` at commas on the underlying character list: splitting at
every comma, so n commas yield n+1 fields (the empty string yields one
empty field). -/
def splitCommaChars : List Char → List (List Char)
  | [] => [[]]
  | c :: cs =>
    let r := splitCommaChars cs
    if c = ',' then [] :: r
    else
      match r with
      | [] => [[c]]
      | h :: t => (c :: h) :: t

/-- Python `images_config.split(',')`. -/
def pySplitComma (s : String) : List String :=
  (splitCommaChars s.data).map String.mk

/-- One job descriptor dict as handled by run_workflow.py.  The comma path
fills every field; a descriptor coming from the JSON path may be missing
keys, hence the `Option` fields (`none` = key absent, a lookup raises
`KeyError`). -/
structure ImageSpec where
  source_bucket : Option String
  source_key : Option String
  dest_bucket : Option String
  dest_key : Option String
deriving Repr, DecidableEq

/-- The descriptor built for one comma-separated source key (run_workflow.py
lines 86-99): destination key = `enhanced_` + basename, with the folder of
the source, when there is one, preserved in front. -/
def commaImageSpec (source_bucket dest_bucket key : String) : ImageSpec :=
  let dest_key :=
    if key.toList.contains '/' then
      pyDirname key ++ "/enhanced_" ++ pyBasename key
    else
      "enhanced_" ++ pyBasename key
  { source_bucket := some source_bucket
    source_key := some key
    dest_bucket := some dest_bucket
    dest_key := some dest_key }

/-- The function `parse_image_list` (run_workflow.py lines 57-101).  `jsonLoads` is the
`json.loads` oracle: `some xs` when the string parses as a JSON array of
descriptors, `none` when parsing raises `JSONDecodeError` or the parsed
value is not a list (both fall through to the comma-separated path).
`source_bucket`/`dest_bucket` are `os.getenv('SOURCE_BUCKET',
'source-bucket')` and `os.getenv('DEST_BUCKET', 'dest-bucket')`. -/
def parse_image_list (jsonLoads : String → Option (List ImageSpec))
    (source_bucket dest_bucket : String) (images_config : String) :
    List ImageSpec :=
  if images_config = "" then []
  else
    match jsonLoads images_config with
    | some images => images
    | none =>
      let image_keys := (pySplitComma images_config).filterMap fun key =>
        if pyStrip key = "" then none else some (pyStrip key)
      image_keys.map (commaImageSpec source_bucket dest_bucket)

/-! ## run_single_image_workflow and the batch results
(run_workflow.py lines 103-180, 260-332, 414-438) -/

/-- Job status recorded in the result dict. -/
inductive JobStatus where
  | success
  | failed
deriving Repr, DecidableEq

/-- The result dict built by `run_single_image_workflow` (wall-clock
duration fields are outside the embedding). -/
structure JobRecord where
  source : String
  destination : String
  status : JobStatus
  result : Option String
  error : Option String
  error_type : Option String
deriving Repr, DecidableEq

/-- The function `run_single_image_workflow` (run_workflow.py lines 103-180).  The
`S3Location` constructions at lines 109-116 subscript the descriptor dict
before the `try:` block, so a missing key raises `KeyError` out of the
function.  Inside the `try:`, the awaited workflow outcome is supplied by
`workflowOutcome`; `except Exception` converts any non-`BaseException`
failure into a failed result dict. -/
def run_single_image_workflow (image_config : ImageSpec)
    (workflowOutcome : Except PyErr String) : Except PyErr JobRecord :=
  match image_config.source_bucket with
  | none => .error ⟨"KeyError", "source_bucket", false⟩
  | some sb =>
  match image_config.source_key with
  | none => .error ⟨"KeyError", "source_key", false⟩
  | some sk =>
  match image_config.dest_bucket with
  | none => .error ⟨"KeyError", "dest_bucket", false⟩
  | some db =>
  match image_config.dest_key with
  | none => .error ⟨"KeyError", "dest_key", false⟩
  | some dk =>
    let source := "s3://" ++ sb ++ "/" ++ sk
    let destination := "s3://" ++ db ++ "/" ++ dk
    match workflowOutcome with
    | .ok r =>
        .ok { source := source, destination := destination
              status := .success, result := some r
              error := none, error_type := none }
    | .error e =>
        if e.isBaseOnly then .error e
        else
          .ok { source := source, destination := destination
                status := .failed, result := none
                error := some e.msg, error_type := some e.typeName }

/-- One element of the list returned by
`asyncio.gather(*tasks, return_exceptions=True)`: either the result dict a
task returned or the exception it raised. -/
inductive BatchEntry where
  | record (r : JobRecord)
  | exn (e : PyErr)
deriving Repr, DecidableEq

/-- The results list of `run_batch_image_workflows` (run_workflow.py lines
295-296): one task per job, in submission order; `return_exceptions=True`
captures a raised exception as the entry itself instead of aborting the
gather.  `workflowOutcome i` is the awaited outcome of job `i`. -/
def gatherResults (jobs : List ImageSpec)
    (workflowOutcome : Nat → Except PyErr String) : List BatchEntry :=
  jobs.enum.map fun p =>
    match run_single_image_workflow p.2 (workflowOutcome p.1) with
    | .ok r => .record r
    | .error e => .exn e

/-- Python `isinstance(r, dict) and r.get('status') == 'success'`: the predicate
`main` (line 421) uses to count successes. -/
def isSuccessEntry : BatchEntry → Bool
  | .record rec => rec.status = .success
  | .exn _ => false

/-- One iteration of the summary loop of `run_batch_image_workflows`
(lines 305-311) over the `(successful, failed)` accumulator: an exception
entry counts as failed, a result dict counts by its status. -/
def countStep (acc : Nat × Nat) (r : BatchEntry) : Nat × Nat :=
  match r with
  | .exn _ => (acc.1, acc.2 + 1)
  | .record rec =>
      if rec.status = .success then (acc.1 + 1, acc.2) else (acc.1, acc.2 + 1)

/-- The summary of `run_batch_image_workflows` (lines 302-311):
`(successful, failed)`. -/
def countResults (results : List BatchEntry) : Nat × Nat :=
  results.foldl countStep (0, 0)

/-- The exit-code computation of `main` (run_workflow.py lines 420-433):
count the entries that are dicts with status success; return 0 when that
count equals the total, otherwise 1 (the single fixed non-zero code). -/
def mainExitCode (results : List BatchEntry) : Nat :=
  let successful := (results.filter isSuccessEntry).length
  if successful = results.length then 0 else 1

/-! ## The job list of run_batch_image_workflows (lines 196-211) -/

/-- The environment variables consulted when assembling the job list
(`none` = variable unset). -/
structure EnvVars where
  SOURCE_BUCKET : Option String
  DEST_BUCKET : Option String
  SOURCE_KEY : Option String
  DEST_KEY : Option String
deriving Repr, DecidableEq

/-- The hard-coded fallback descriptor of run_workflow.py lines 200-211,
used when the parsed image list is empty (note the defaults differ from the
ones used inside `parse_image_list`). -/
def fallbackImageSpec (env : EnvVars) : ImageSpec :=
  { source_bucket := some (env.SOURCE_BUCKET.getD "ricardotemporal")
    source_key := some (env.SOURCE_KEY.getD "funny.png")
    dest_bucket := some (env.DEST_BUCKET.getD "ricardotemporalprocessed")
    dest_key := some (env.DEST_KEY.getD "enhanced_funny.png") }

/-- The job list actually processed by `run_batch_image_workflows` (lines
196-211): the parsed list, or — when it is empty — the single fallback
descriptor. -/
def run_batch_jobs (jsonLoads : String → Option (List ImageSpec))
    (env : EnvVars) (images_config : String) : List ImageSpec :=
  let images := parse_image_list jsonLoads (env.SOURCE_BUCKET.getD "source-bucket")
    (env.DEST_BUCKET.getD "dest-bucket") images_config
  if images = [] then [fallbackImageSpec env] else images

/-! ## The admission gate (run_workflow.py lines 262-296)

`run_batch_image_workflows` creates `asyncio.Semaphore(max_concurrent)` and
one task per job; each task's whole body — including the awaited workflow
execution — runs inside `async with semaphore`.  The semaphore (asyncio
standard library) is modelled as an explicit transition system over the
tasks' identities: a task arrives (reaches the `async with` acquire) and is
either admitted (a free slot exists) or appended to the FIFO wait queue; a
finishing task releases its slot, waking the queue head if there is one.
Tasks arrive in submission order (the list comprehension at line 295 and
`asyncio.gather` at line 296 start them in order). -/

structure SemState where
  /-- Free slots of the semaphore. -/
  value : Nat
  /-- Waiting tasks (arrived, not yet admitted), FIFO. -/
  queue : List Nat
  /-- Admitted tasks whose workflow execution has not reached a terminal
  result (they hold a slot): the jobs "in flight". -/
  running : List Nat
  /-- Admission trace: every task admitted so far, in admission order. -/
  admitted : List Nat
  /-- Tasks not yet arrived, in submission order. -/
  pending : List Nat
deriving Repr, DecidableEq

/-- The initial state of a batch: `asyncio.Semaphore(max_concurrent)` with
all `n` job tasks submitted in order `0, 1, ..., n-1`. -/
def initSemState (max_concurrent n : Nat) : SemState :=
  { value := max_concurrent
    queue := []
    running := []
    admitted := []
    pending := List.range n }

/-- One scheduler step of the batch dispatcher. -/
inductive SemStep : SemState → SemState → Prop where
  /-- The next submitted task reaches the `async with semaphore` acquire
  while a slot is free: it is admitted at once. -/
  | arriveAdmit (s : SemState) (j : Nat) (rest : List Nat)
      (hp : s.pending = j :: rest) (hv : 0 < s.value) :
      SemStep s { value := s.value - 1, queue := s.queue,
                  running := s.running ++ [j],
                  admitted := s.admitted ++ [j], pending := rest }
  /-- The next submitted task reaches the acquire with no slot free: it
  joins the FIFO wait queue. -/
  | arriveWait (s : SemState) (j : Nat) (rest : List Nat)
      (hp : s.pending = j :: rest) (hv : s.value = 0) :
      SemStep s { s with queue := s.queue ++ [j], pending := rest }
  /-- An in-flight task reaches its terminal result and releases the
  semaphore, which hands the slot to the first waiter. -/
  | finishWake (s : SemState) (j h : Nat) (t : List Nat)
      (hj : j ∈ s.running) (hq : s.queue = h :: t) :
      SemStep s { s with
                  queue := t,
                  running := s.running.erase j ++ [h],
                  admitted := s.admitted ++ [h] }
  /-- An in-flight task reaches its terminal result with nobody waiting:
  the slot becomes free again. -/
  | finishIdle (s : SemState) (j : Nat)
      (hj : j ∈ s.running) (hq : s.queue = []) :
      SemStep s { s with value := s.value + 1, running := s.running.erase j }

/-- The states a batch with `n` jobs and limit `max_concurrent` can reach. -/
inductive SemReachable (max_concurrent n : Nat) : SemState → Prop where
  | init : SemReachable max_concurrent n (initSemState max_concurrent n)
  | step {s s' : SemState} (hs : SemReachable max_concurrent n s)
      (h : SemStep s s') : SemReachable max_concurrent n s'

/-! ## WorkerManager (start_workers.py) -/

/-- Supervisor-side record for one pool slot (`self.processes[i]` and
`self.log_files[i]`): whether the process is still alive
(`process.poll() is None`), its exit code once dead, how many times the
slot has been restarted, and whether its current log file is open. -/
structure WorkerSlot where
  alive : Bool
  exitCode : Int
  restarts : Nat
  logOpen : Bool
deriving Repr, DecidableEq

/-- Observable events of one monitoring pass, per slot (`worker_id` is the
1-based slot index used by the print statements). -/
inductive SupEvent where
  /-- The `print` of the death notice with the return code. -/
  | died (workerId : Nat) (code : Int)
  /-- The `self.log_files[i].close()` call. -/
  | logClosed (workerId : Nat)
  /-- The `self.processes[i] = new_process` assignment after the restart `Popen`. -/
  | restarted (workerId : Nat)
deriving Repr, DecidableEq

/-- How `monitor_workers` treats one slot in one pass of its loop
(start_workers.py lines 145-222): a live slot is left alone; a dead slot is
logged with its exit code, its log file is closed, and a replacement
process with a fresh open log file is launched into the same slot —
unconditionally, whatever the restart count. -/
def monitorSlot (i : Nat) (w : WorkerSlot) : WorkerSlot × List SupEvent :=
  if w.alive then (w, [])
  else
    ({ alive := true, exitCode := 0, restarts := w.restarts + 1, logOpen := true },
     [.died (i + 1) w.exitCode, .logClosed (i + 1), .restarted (i + 1)])

/-- One full pass of the `monitor_workers` loop body over `self.processes`
(lines 145-222), followed by `time.sleep(2)`: returns the new slot list and
the events of the pass. -/
def monitor_pass (slots : List WorkerSlot) : List WorkerSlot × List SupEvent :=
  (slots.enum.map fun p => (monitorSlot p.1 p.2).1,
   (slots.enum.map fun p => (monitorSlot p.1 p.2).2).flatten)

/-- The fixed polling interval of the monitoring loop, `time.sleep(2)` at
start_workers.py line 226 (in the spec's time units: seconds). -/
def monitorIntervalSeconds : Nat := 2

/-- Live-process count of the pool (`process.poll() is None` per slot). -/
def liveCount (slots : List WorkerSlot) : Nat :=
  (slots.filter fun w => w.alive).length

/-! ## Concrete instances used by witnesses and counterexamples -/

/-- Activity behavior used to instantiate the hypotheses of the C5 theorem:
all steps succeed, the first cleanup fails. -/
def envWitness : ActivityBehavior :=
  { download := .ok "/tmp/orig.png"
    enhance := fun _ => .ok "/tmp/enhanced.png"
    upload := fun _ => .ok ()
    cleanup := fun p =>
      if p = "/tmp/orig.png" then .error ⟨"OSError", "busy", false⟩ else .ok () }

/-- Activity behavior where all three main steps succeed (both handles are
registered) and the first cleanup's await raises a cancellation-classified
(`BaseException`-only) error, as happens when the workflow is cancelled
while the `finally:` block runs. -/
def envCancelCleanup : ActivityBehavior :=
  { download := .ok "/tmp/orig.png"
    enhance := fun _ => .ok "/tmp/enhanced.png"
    upload := fun _ => .ok ()
    cleanup := fun p =>
      if p = "/tmp/orig.png" then .error ⟨"CancelledError", "cancelled", true⟩
      else .ok () }

/-- A concrete source location for witnesses. -/
def srcWitness : S3Location := ⟨"source-bucket", "photos/cat.png"⟩

/-- A concrete destination location for witnesses. -/
def dstWitness : S3Location := ⟨"dest-bucket", "photos/enhanced_cat.png"⟩

/-- A dead pool slot: exit code -9 after 7 earlier restarts. -/
def deadSlotWitness : WorkerSlot :=
  { alive := false, exitCode := -9, restarts := 7, logOpen := true }

/-- The pool used to instantiate the hypotheses of the C8 theorem: worker 1
alive, worker 2 dead with exit code -9 after 7 earlier restarts. -/
def slotsWitness : List WorkerSlot :=
  [{ alive := true, exitCode := 0, restarts := 0, logOpen := true },
   deadSlotWitness]

/-- The state of a batch of 3 jobs under limit 2 after both slots fill, job
2 queues, and job 0 finishes (waking job 2): used by the C2 witness. -/
def semStateWitness : SemState :=
  { value := 0, queue := [], running := [1, 2], admitted := [0, 1, 2],
    pending := [] }

/-- An environment with none of the batch variables set. -/
def envVarsNone : EnvVars :=
  { SOURCE_BUCKET := none, DEST_BUCKET := none, SOURCE_KEY := none,
    DEST_KEY := none }

/-- The state reached from `initSemState 5 1` by admitting the fallback job
of an empty batch: used by the C3 counterexample. -/
def fallbackAdmittedState : SemState :=
  { value := 4, queue := [], running := [0], admitted := [0], pending := [] }

/-- A job descriptor missing its `source_bucket` key (as a JSON-supplied
descriptor may): subscripting it raises `KeyError` before the `try:` block
of `run_single_image_workflow`. -/
def malformedSpec : ImageSpec :=
  { source_bucket := none, source_key := some "a.jpg"
    dest_bucket := some "dest-bucket", dest_key := some "enhanced_a.jpg" }

/-- A fully populated job descriptor. -/
def goodSpec : ImageSpec :=
  { source_bucket := some "source-bucket", source_key := some "b.png"
    dest_bucket := some "dest-bucket", dest_key := some "enhanced_b.png" }

/-- The two-job batch used by the C6 witness: a well-formed job whose
workflow raises an RPC fault, and a malformed one. -/
def jobsWitness : List ImageSpec := [goodSpec, malformedSpec]

/-- Outcomes for `jobsWitness`: job 0's awaited workflow raises a
non-terminal RPC fault, job 1 never reaches its await. -/
def outcomeWitness : Nat → Except PyErr String := fun i =>
  if i = 0 then .error ⟨"RPCError", "worker unavailable", false⟩ else .ok "ok"

/-- A failed result dict, as `run_single_image_workflow` builds on a caught
workflow failure. -/
def failedRecord1 : JobRecord :=
  { source := "s3://source-bucket/a.jpg"
    destination := "s3://dest-bucket/enhanced_a.jpg"
    status := .failed, result := none
    error := some "activity failed", error_type := some "ApplicationError" }

/-- A second failed result dict. -/
def failedRecord2 : JobRecord :=
  { source := "s3://source-bucket/b.png"
    destination := "s3://dest-bucket/enhanced_b.png"
    status := .failed, result := none
    error := some "timed out", error_type := some "TimeoutError" }

/-- A batch results list with two failed jobs: used by the C7
counterexample. -/
def twoFailures : List BatchEntry :=
  [.record failedRecord1, .record failedRecord2]

/-- The descriptor the comma path builds for `photos/b.png`: used by the C9
witness. -/
def specWitness9 : ImageSpec :=
  commaImageSpec "source-bucket" "dest-bucket" "photos/b.png"

/-- The descriptor the comma path builds for `x.jpg`: used by the C10
witness. -/
def specWitness10 : ImageSpec := commaImageSpec "sb" "db" "x.jpg"

/-! ## Theorems -/

theorem cleanupCalls_append (a b : List WfEvent) :
    cleanupCalls (a ++ b) = cleanupCalls a ++ cleanupCalls b := by
  simp [cleanupCalls]

theorem cleanupPolicies_append (a b : List WfEvent) :
    cleanupPolicies (a ++ b) = cleanupPolicies a ++ cleanupPolicies b := by
  simp [cleanupPolicies]

theorem cleanupCalls_cleanup_one (env : ActivityBehavior) (label : String) :
    ∀ o : Option String,
      cleanupCalls (cleanup_one env label o).1
        = match o with
          | none => []
          | some p => if p = "" then [] else [p] := by
  intro o
  match o with
  | none => rfl
  | some p =>
    by_cases hp : p = ""
    · simp [cleanup_one, hp, cleanupCalls]
    · rcases hc : env.cleanup p with e | u
      · by_cases hb : e.isBaseOnly <;>
          simp [cleanup_one, hp, hc, hb, cleanupCalls]
      · simp [cleanup_one, hp, hc, cleanupCalls]

theorem cleanup_one_no_escape (env : ActivityBehavior) (label : String)
    (o : Option String)
    (hx : ∀ p e, env.cleanup p = .error e → e.isBaseOnly = false) :
    (cleanup_one env label o).2 = none := by
  match o with
  | none => rfl
  | some p =>
    by_cases hp : p = ""
    · simp [cleanup_one, hp]
    · rcases hc : env.cleanup p with e | u
      · simp [cleanup_one, hp, hc, hx p e hc]
      · simp [cleanup_one, hp, hc]

theorem finally_run_no_escape (env : ActivityBehavior) (orig enh : Option String)
    (hx : ∀ p e, env.cleanup p = .error e → e.isBaseOnly = false) :
    finally_run env orig enh
      = ((cleanup_one env "original" orig).1
          ++ (cleanup_one env "enhanced" enh).1, none) := by
  have h1 := cleanup_one_no_escape env "original" orig hx
  have h2 := cleanup_one_no_escape env "enhanced" enh hx
  rcases hc1 : cleanup_one env "original" orig with ⟨ev1, esc1⟩
  rcases hc2 : cleanup_one env "enhanced" enh with ⟨ev2, esc2⟩
  rw [hc1] at h1
  rw [hc2] at h2
  simp only at h1 h2
  subst h1
  subst h2
  simp [finally_run, hc1, hc2]

theorem run_trace_no_escape (env : ActivityBehavior) (src dst : S3Location)
    (hx : ∀ p e, env.cleanup p = .error e → e.isBaseOnly = false) :
    ImageEnhancementWorkflow.run env src dst
      = ((tryPhase env src dst).events
          ++ ((cleanup_one env "original" (tryPhase env src dst).original).1
              ++ (cleanup_one env "enhanced" (tryPhase env src dst).enhanced).1)
          ++ [.terminal (tryPhase env src dst).result],
         (tryPhase env src dst).result) := by
  have hf := finally_run_no_escape env (tryPhase env src dst).original
    (tryPhase env src dst).enhanced hx
  simp [ImageEnhancementWorkflow.run, hf]

theorem cleanupCalls_tryPhase (env : ActivityBehavior) (src dst : S3Location) :
    cleanupCalls (tryPhase env src dst).events = [] := by
  rcases hd : env.download with e | orig
  · simp [tryPhase, hd, cleanupCalls]
  · rcases he : env.enhance orig with e | enh
    · simp [tryPhase, hd, he, cleanupCalls]
    · rcases hu : env.upload enh with e | u <;>
        simp [tryPhase, hd, he, hu, cleanupCalls]

theorem cleanupCalls_finally_parts (env : ActivityBehavior) (src dst : S3Location) :
    cleanupCalls (cleanup_one env "original" (tryPhase env src dst).original).1
        ++ cleanupCalls (cleanup_one env "enhanced" (tryPhase env src dst).enhanced).1
      = registeredHandles env := by
  rw [cleanupCalls_cleanup_one, cleanupCalls_cleanup_one]
  rcases hd : env.download with e | orig
  · simp [tryPhase, hd, registeredHandles]
  · rcases he : env.enhance orig with e | enh
    · simp [tryPhase, hd, he, registeredHandles]
    · rcases hu : env.upload enh with e | u <;>
        simp [tryPhase, hd, he, hu, registeredHandles]

theorem cleanupCalls_run_no_escape (env : ActivityBehavior) (src dst : S3Location)
    (hx : ∀ p e, env.cleanup p = .error e → e.isBaseOnly = false) :
    cleanupCalls (ImageEnhancementWorkflow.run env src dst).1
      = registeredHandles env := by
  rw [run_trace_no_escape env src dst hx]
  simp only [cleanupCalls_append]
  rw [cleanupCalls_tryPhase, cleanupCalls_finally_parts]
  simp [cleanupCalls]

theorem registeredHandles_cleanup_irrelevant (env : ActivityBehavior)
    (c' : String → Except PyErr Unit) :
    registeredHandles { env with cleanup := c' } = registeredHandles env :=
  rfl

/-- C1 counterexample: when the workflow is cancelled while the first
cleanup's await is in flight (a `BaseException`-only failure that
`except Exception` does not catch), the enhanced handle — though registered
— never gets a cleanup invocation: one registered artifact leaks, and the
terminal result is the escaped cancellation error rather than the try
phase's result.  The claim's "no registered artifact is leaked regardless
of ... whether the workflow was cancelled" fails here. -/
theorem cancelled_cleanup_leaks_second_handle :
    registeredHandles envCancelCleanup = ["/tmp/orig.png", "/tmp/enhanced.png"]
    ∧ cleanupCalls
        (ImageEnhancementWorkflow.run envCancelCleanup srcWitness dstWitness).1
        = ["/tmp/orig.png"]
    ∧ (ImageEnhancementWorkflow.run envCancelCleanup srcWitness dstWitness).2
        = Except.error ⟨"CancelledError", "cancelled", true⟩ :=
  ⟨rfl, rfl, rfl⟩

/-- C1 (amended): for every job execution whose cleanup invocations do not
themselves fail with a BaseException-class (cancellation) error, and every
exit path of the three main steps (all succeed, any raises a terminal error
— cancellation of a main step included, as a cancellation-classified
error), the cleanup step is invoked exactly once for each artifact handle
registered before that point (the downloaded original file and, if created,
the enhanced file), in registration order, all cleanup invocations precede
the report of the terminal result, and the terminal result is the try
phase's own result: no registered artifact is leaked and none is cleaned
twice.  (A BaseException-class cleanup failure instead aborts the rest of
the `finally:` block and replaces the terminal result.) -/
theorem cleanup_runs_once_per_artifact_before_terminal
    (env : ActivityBehavior) (src dst : S3Location)
    (hx : ∀ p e, env.cleanup p = .error e → e.isBaseOnly = false) :
    (ImageEnhancementWorkflow.run env src dst).2 = (tryPhase env src dst).result
    ∧ cleanupCalls (ImageEnhancementWorkflow.run env src dst).1
        = registeredHandles env
    ∧ ∃ pre : List WfEvent,
        (ImageEnhancementWorkflow.run env src dst).1
            = pre ++ [WfEvent.terminal (ImageEnhancementWorkflow.run env src dst).2]
          ∧ cleanupCalls pre = registeredHandles env := by
  refine ⟨?_, cleanupCalls_run_no_escape env src dst hx, ?_⟩
  · rw [run_trace_no_escape env src dst hx]
  · refine ⟨(tryPhase env src dst).events
        ++ ((cleanup_one env "original" (tryPhase env src dst).original).1
            ++ (cleanup_one env "enhanced" (tryPhase env src dst).enhanced).1),
      ?_, ?_⟩
    · rw [run_trace_no_escape env src dst hx]
    · rw [cleanupCalls_append, cleanupCalls_append, cleanupCalls_tryPhase,
        cleanupCalls_finally_parts]
      simp

theorem envWitness_cleanup_exception_class :
    ∀ p e, envWitness.cleanup p = .error e → e.isBaseOnly = false := by
  intro p e h
  by_cases hp : p = "/tmp/orig.png"
  · simp [envWitness, hp] at h
    subst h
    rfl
  · simp [envWitness, hp] at h

/-- Witness for C1 (amended): on a run whose first cleanup fails with an
Exception-class error (and the second succeeds), both registered handles
get exactly one cleanup invocation, in order. -/
theorem cleanup_runs_once_per_artifact_before_terminal_witness :
    cleanupCalls
        (ImageEnhancementWorkflow.run envWitness srcWitness dstWitness).1
      = ["/tmp/orig.png", "/tmp/enhanced.png"] :=
  ((cleanup_runs_once_per_artifact_before_terminal envWitness srcWitness
      dstWitness envWitness_cleanup_exception_class).2.1).trans rfl

theorem cleanupPolicies_cleanup_one (env : ActivityBehavior) (label : String)
    (o : Option String) :
    ∀ pol ∈ cleanupPolicies (cleanup_one env label o).1,
      pol.maximumAttempts = 1 := by
  match o with
  | none => intro pol h; simp [cleanup_one, cleanupPolicies] at h
  | some p =>
    intro pol h
    by_cases hp : p = ""
    · simp [cleanup_one, hp, cleanupPolicies] at h
    · rcases hc : env.cleanup p with e | u
      · by_cases hb : e.isBaseOnly <;>
          simp [cleanup_one, hp, hc, hb, cleanupPolicies] at h <;>
          simp [h, cleanup_retry_policy]
      · simp [cleanup_one, hp, hc, cleanupPolicies] at h
        simp [h, cleanup_retry_policy]

theorem tryPhase_cleanup_irrelevant (env : ActivityBehavior)
    (c' : String → Except PyErr Unit) (src dst : S3Location) :
    tryPhase { env with cleanup := c' } src dst = tryPhase env src dst := by
  rfl

theorem cleanupPolicies_tryPhase (env : ActivityBehavior) (src dst : S3Location) :
    cleanupPolicies (tryPhase env src dst).events = [] := by
  rcases hd : env.download with e | orig
  · simp [tryPhase, hd, cleanupPolicies]
  · rcases he : env.enhance orig with e | enh
    · simp [tryPhase, hd, he, cleanupPolicies]
    · rcases hu : env.upload enh with e | u <;>
        simp [tryPhase, hd, he, hu, cleanupPolicies]

theorem run_trace_shape (env : ActivityBehavior) (src dst : S3Location) :
    (ImageEnhancementWorkflow.run env src dst).1
      = (tryPhase env src dst).events
        ++ (finally_run env (tryPhase env src dst).original
            (tryPhase env src dst).enhanced).1
        ++ [.terminal (ImageEnhancementWorkflow.run env src dst).2] :=
  rfl

theorem cleanupPolicies_finally_run (env : ActivityBehavior)
    (orig enh : Option String) :
    ∀ pol ∈ cleanupPolicies (finally_run env orig enh).1,
      pol.maximumAttempts = 1 := by
  intro pol hpol
  have H1 := cleanupPolicies_cleanup_one env "original" orig
  have H2 := cleanupPolicies_cleanup_one env "enhanced" enh
  rcases hc1 : cleanup_one env "original" orig with ⟨ev1, esc1⟩
  rw [hc1] at H1
  rcases esc1 with _ | e
  · rcases hc2 : cleanup_one env "enhanced" enh with ⟨ev2, esc2⟩
    rw [hc2] at H2
    rw [finally_run, hc1] at hpol
    simp only [hc2, cleanupPolicies_append, List.mem_append] at hpol
    rcases hpol with h | h
    · exact H1 pol h
    · exact H2 pol h
  · rw [finally_run, hc1] at hpol
    exact H1 pol hpol

/-- C5 counterexample: a cancellation-classified (BaseException-only)
failure of the first cleanup is not caught by the `except Exception` around
it: the job's terminal status changes (the succeeded try phase reports the
escaped cancellation error instead of its success value) and the remaining
registered handle's cleanup is never attempted — the claim's "never changes
the job's terminal status and never prevents cleanup of the remaining
registered handles" fails here. -/
theorem cancelled_cleanup_changes_status_and_blocks_rest :
    (tryPhase envCancelCleanup srcWitness dstWitness).result
        = Except.ok (successMessage srcWitness dstWitness)
    ∧ (ImageEnhancementWorkflow.run envCancelCleanup srcWitness dstWitness).2
        ≠ (tryPhase envCancelCleanup srcWitness dstWitness).result
    ∧ "/tmp/enhanced.png" ∉ cleanupCalls
        (ImageEnhancementWorkflow.run envCancelCleanup srcWitness dstWitness).1 := by
  refine ⟨rfl, ?_, by decide⟩
  intro h
  rw [show (ImageEnhancementWorkflow.run envCancelCleanup srcWitness
        dstWitness).2
      = Except.error ⟨"CancelledError", "cancelled", true⟩ from rfl,
    show (tryPhase envCancelCleanup srcWitness dstWitness).result
      = Except.ok (successMessage srcWitness dstWitness) from rfl] at h
  exact Except.noConfusion h

/-- C5 (amended): every cleanup invocation of a workflow run uses a
non-retrying policy (maximum attempts = 1), and an Exception-class cleanup
failure is logged as a warning only: as long as the cleanup outcomes are
Exception-class (as `except Exception` requires), they influence neither
the job's terminal result (a succeeded job still returns its success value,
a failed job still re-raises its first terminal error) nor which registered
handles get a cleanup attempt (a failed first cleanup does not block the
second).  A BaseException-class (cancellation) cleanup failure is not
caught: it replaces the terminal result and aborts the remaining
cleanups. -/
theorem cleanup_nonretrying_and_never_changes_outcome
    (env : ActivityBehavior) (c' : String → Except PyErr Unit)
    (src dst : S3Location)
    (hx : ∀ p e, env.cleanup p = .error e → e.isBaseOnly = false)
    (hx' : ∀ p e, c' p = .error e → e.isBaseOnly = false) :
    (∀ pol ∈ cleanupPolicies (ImageEnhancementWorkflow.run env src dst).1,
        pol.maximumAttempts = 1)
      ∧ (ImageEnhancementWorkflow.run { env with cleanup := c' } src dst).2
          = (ImageEnhancementWorkflow.run env src dst).2
      ∧ cleanupCalls (ImageEnhancementWorkflow.run { env with cleanup := c' } src dst).1
          = cleanupCalls (ImageEnhancementWorkflow.run env src dst).1 := by
  refine ⟨?_, ?_, ?_⟩
  · intro pol h
    rw [run_trace_shape] at h
    simp only [cleanupPolicies_append, List.mem_append] at h
    rcases h with (h | h) | h
    · rw [cleanupPolicies_tryPhase] at h; simp at h
    · exact cleanupPolicies_finally_run env _ _ pol h
    · simp [cleanupPolicies] at h
  · rw [run_trace_no_escape env src dst hx,
      run_trace_no_escape { env with cleanup := c' } src dst hx',
      tryPhase_cleanup_irrelevant]
  · rw [cleanupCalls_run_no_escape env src dst hx,
      cleanupCalls_run_no_escape { env with cleanup := c' } src dst hx',
      registeredHandles_cleanup_irrelevant]

/-- Witness for C5 (amended): instantiating the theorem at a concrete run
whose first cleanup fails with an Exception-class error, the policy of the
recorded cleanup call has maximum attempts 1 (and swapping in an
all-succeeding cleanup changes neither result nor attempted cleanups). -/
theorem cleanup_nonretrying_and_never_changes_outcome_witness :
    cleanup_retry_policy.maximumAttempts = 1 :=
  (cleanup_nonretrying_and_never_changes_outcome envWitness
      (fun _ => .ok ()) srcWitness dstWitness
      envWitness_cleanup_exception_class
      (fun _ _ h => Except.noConfusion h)).1
    cleanup_retry_policy (by decide)

theorem executeStepFrom_succ {α : Type} (stepName : String)
    (policy : RetryPolicy) (op : Nat → Except String α) (attempt n : Nat) :
    executeStepFrom stepName policy op attempt (n + 1)
      = match op attempt with
        | .ok v => ([attempt], .ok v)
        | .error err =>
          if attempt < policy.maximumAttempts then
            (attempt :: (executeStepFrom stepName policy op (attempt + 1) n).1,
             (executeStepFrom stepName policy op (attempt + 1) n).2)
          else ([attempt], .error ⟨stepName, attempt, err⟩) := rfl

theorem executeStepFrom_all_fail {α : Type} (stepName : String)
    (policy : RetryPolicy) (op : Nat → Except String α) (e : Nat → String)
    (hfail : ∀ i, op i = .error (e i)) :
    ∀ fuel attempt, attempt + fuel = policy.maximumAttempts →
      executeStepFrom stepName policy op attempt (fuel + 1)
        = (List.range' attempt (fuel + 1),
           .error ⟨stepName, policy.maximumAttempts,
                   e policy.maximumAttempts⟩) := by
  intro fuel
  induction fuel with
  | zero =>
    intro attempt h
    have ha : attempt = policy.maximumAttempts := by omega
    subst ha
    rw [executeStepFrom_succ, hfail]
    simp [List.range'_one]
  | succ n ih =>
    intro attempt h
    have hlt : attempt < policy.maximumAttempts := by omega
    have H := ih (attempt + 1) (by omega)
    rw [executeStepFrom_succ, hfail]
    simp only [hlt, if_true, H, List.range'_succ]

theorem executeStepFrom_length_le {α : Type} (stepName : String)
    (policy : RetryPolicy) (op : Nat → Except String α) :
    ∀ fuel attempt,
      (executeStepFrom stepName policy op attempt fuel).1.length ≤ fuel := by
  intro fuel
  induction fuel with
  | zero => intro attempt; simp [executeStepFrom]
  | succ n ih =>
    intro attempt
    rcases hop : op attempt with err | v
    · by_cases hlt : attempt < policy.maximumAttempts
      · simpa [executeStepFrom, hop, hlt] using ih (attempt + 1)
      · simp [executeStepFrom, hop, hlt]
    · simp [executeStepFrom, hop]

/-- C4: the fetch, transform and store steps are configured with a maximum
attempt count of 3 (`retry_policy`), and for every retry policy with
maximum attempt count k ≥ 1, a step whose underlying operation fails on
every invocation is attempted exactly k times — attempts 1 through k — and
then yields a terminal error carrying the step name, the attempt count k
and the last underlying failure; moreover, whatever the operation does, it
is never invoked more than k times. -/
theorem permanently_failing_step_attempted_exactly_k_times :
    retry_policy.maximumAttempts = 3
    ∧ (∀ {α : Type} (stepName : String) (policy : RetryPolicy)
          (op : Nat → Except String α) (e : Nat → String),
          1 ≤ policy.maximumAttempts → (∀ i, op i = .error (e i)) →
          executeStep stepName policy op
            = (List.range' 1 policy.maximumAttempts,
               .error ⟨stepName, policy.maximumAttempts,
                       e policy.maximumAttempts⟩))
    ∧ ∀ {α : Type} (stepName : String) (policy : RetryPolicy)
        (op : Nat → Except String α),
        (executeStep stepName policy op).1.length ≤ policy.maximumAttempts := by
  refine ⟨rfl, ?_, ?_⟩
  · intro α stepName policy op e h1 hfail
    obtain ⟨m, hm⟩ : ∃ m, policy.maximumAttempts = m + 1 :=
      ⟨policy.maximumAttempts - 1, by omega⟩
    have H := executeStepFrom_all_fail stepName policy op e hfail m 1 (by omega)
    unfold executeStep
    rw [hm] at H ⊢
    exact H
  · intro α stepName policy op
    exact executeStepFrom_length_le stepName policy op policy.maximumAttempts 1

/-- Witness for C4: a download operation that fails on every attempt under
the source's `retry_policy` is invoked at attempts 1, 2, 3 and ends in a
terminal error carrying attempt count 3 and the last failure. -/
theorem permanently_failing_step_attempted_exactly_k_times_witness :
    executeStep "download_image_from_s3" retry_policy
        (fun _ => (Except.error "connection reset" : Except String String))
      = ([1, 2, 3],
         Except.error ⟨"download_image_from_s3", 3, "connection reset"⟩) := by
  have h := permanently_failing_step_attempted_exactly_k_times.2.1
    "download_image_from_s3" retry_policy
    (fun _ => (Except.error "connection reset" : Except String String))
    (fun _ => "connection reset") (by decide) (fun _ => rfl)
  rw [h]
  rfl

theorem monitorSlot_alive (i : Nat) (w : WorkerSlot) :
    (monitorSlot i w).1.alive = true := by
  by_cases h : w.alive <;> simp [monitorSlot, h]

theorem monitor_pass_length (slots : List WorkerSlot) :
    (monitor_pass slots).1.length = slots.length := by
  simp [monitor_pass]

theorem monitor_pass_getElem? (slots : List WorkerSlot) (i : Nat) :
    (monitor_pass slots).1[i]? = slots[i]?.map fun w => (monitorSlot i w).1 := by
  simp only [monitor_pass, List.getElem?_map, List.getElem?_enum]
  cases slots[i]? <;> simp

/-- C8: the fixed polling interval is 2 time units, and in the monitoring
pass that follows a worker process's exit (i.e. within one interval) every
dead slot is detected: its exit code is logged, its log sink is closed, and
a replacement process is launched into the same slot unconditionally — for
every restart count — while live slots are left untouched; after the pass
the live-process count is back to the pool size. -/
theorem dead_worker_replaced_within_one_interval (slots : List WorkerSlot) :
    monitorIntervalSeconds = 2
    ∧ (monitor_pass slots).1.length = slots.length
    ∧ liveCount (monitor_pass slots).1 = slots.length
    ∧ ∀ i w, slots[i]? = some w →
        (w.alive = true → (monitor_pass slots).1[i]? = some w)
        ∧ (w.alive = false →
            (monitor_pass slots).1[i]?
                = some { alive := true, exitCode := 0,
                         restarts := w.restarts + 1, logOpen := true }
              ∧ SupEvent.died (i + 1) w.exitCode ∈ (monitor_pass slots).2
              ∧ SupEvent.logClosed (i + 1) ∈ (monitor_pass slots).2
              ∧ SupEvent.restarted (i + 1) ∈ (monitor_pass slots).2) := by
  refine ⟨rfl, monitor_pass_length slots, ?_, ?_⟩
  · rw [liveCount, List.filter_eq_self.mpr, monitor_pass_length]
    intro w hw
    rcases List.mem_map.mp hw with ⟨p, _, hp⟩
    rw [← hp]
    exact monitorSlot_alive p.1 p.2
  · intro i w hw
    have hev : w.alive = false →
        [SupEvent.died (i + 1) w.exitCode, SupEvent.logClosed (i + 1),
         SupEvent.restarted (i + 1)] ∈
          slots.enum.map fun p => (monitorSlot p.1 p.2).2 := by
      intro hdead
      have hmem : (i, w) ∈ slots.enum := by
        apply List.getElem?_mem
        rw [List.getElem?_enum, hw]
        rfl
      have := List.mem_map_of_mem (fun p => (monitorSlot p.1 p.2).2) hmem
      simpa [monitorSlot, hdead] using this
    refine ⟨?_, ?_⟩
    · intro halive
      rw [monitor_pass_getElem?, hw]
      simp [monitorSlot, halive]
    · intro hdead
      refine ⟨?_, ?_, ?_, ?_⟩
      · rw [monitor_pass_getElem?, hw]
        simp [monitorSlot, hdead]
      all_goals
        exact List.mem_flatten.mpr ⟨_, hev hdead, by simp⟩

/-- Witness for C8: in the pass after worker 2 (of a pool of 2) is killed,
its death is logged with exit code -9, its slot is restarted regardless of
its 7 earlier restarts, and the live count is back to 2. -/
theorem dead_worker_replaced_within_one_interval_witness :
    liveCount (monitor_pass slotsWitness).1 = 2
    ∧ (monitor_pass slotsWitness).1[1]?
        = some { alive := true, exitCode := 0, restarts := 8, logOpen := true }
    ∧ SupEvent.died 2 (-9) ∈ (monitor_pass slotsWitness).2 := by
  have h := dead_worker_replaced_within_one_interval slotsWitness
  have h2 := (h.2.2.2 1 deadSlotWitness rfl).2 rfl
  exact ⟨h.2.2.1, h2.1, h2.2.1⟩

theorem semStep_invariant (max_concurrent n : Nat) {s s' : SemState}
    (hstep : SemStep s s')
    (hcap : s.value + s.running.length = max_concurrent)
    (hq0 : s.queue ≠ [] → s.value = 0)
    (horder : s.admitted ++ s.queue ++ s.pending = List.range n) :
    s'.value + s'.running.length = max_concurrent
    ∧ (s'.queue ≠ [] → s'.value = 0)
    ∧ s'.admitted ++ s'.queue ++ s'.pending = List.range n := by
  cases hstep with
  | arriveAdmit j rest hp hv =>
    have hqe : s.queue = [] := by
      by_contra hne
      exact absurd (hq0 hne) (by omega)
    refine ⟨by simp; omega, by simp [hqe], ?_⟩
    rw [hp, hqe] at horder
    simpa [hqe] using horder
  | arriveWait j rest hp hv =>
    refine ⟨hcap, fun _ => hv, ?_⟩
    rw [hp] at horder
    simpa using horder
  | finishWake j h t hj hq =>
    have hlen : (s.running.erase j).length + 1 = s.running.length := by
      rw [List.length_erase_of_mem hj]
      have := List.length_pos.mpr (List.ne_nil_of_mem hj)
      omega
    refine ⟨by simp; omega, fun _ => hq0 (by simp [hq]), ?_⟩
    rw [hq] at horder
    simpa using horder
  | finishIdle j hj hq =>
    have hlen : (s.running.erase j).length + 1 = s.running.length := by
      rw [List.length_erase_of_mem hj]
      have := List.length_pos.mpr (List.ne_nil_of_mem hj)
      omega
    exact ⟨by simp; omega, by simp [hq], horder⟩

theorem semReachable_invariant (max_concurrent n : Nat) (s : SemState)
    (h : SemReachable max_concurrent n s) :
    s.value + s.running.length = max_concurrent
    ∧ (s.queue ≠ [] → s.value = 0)
    ∧ s.admitted ++ s.queue ++ s.pending = List.range n := by
  induction h with
  | init => simp [initSemState]
  | step hs hstep ih =>
    exact semStep_invariant max_concurrent n hstep ih.1 ih.2.1 ih.2.2

/-- C2: in every state a batch of `n` jobs under concurrency limit
`max_concurrent` can reach, the number of job executions in flight
(admitted but not yet at a terminal result, i.e. holding the semaphore)
never exceeds the limit, and the admission trace is a prefix of the
submission order `0, 1, ..., n-1`: jobs beyond the limit are admitted in
submission order (FIFO) as slots free up. -/
theorem in_flight_never_exceeds_limit_and_admission_is_fifo
    (max_concurrent n : Nat) (s : SemState)
    (h : SemReachable max_concurrent n s) :
    s.running.length ≤ max_concurrent
    ∧ s.admitted = (List.range n).take s.admitted.length := by
  obtain ⟨hcap, _, horder⟩ := semReachable_invariant max_concurrent n s h
  refine ⟨by omega, ?_⟩
  have hpre : s.admitted <+: List.range n :=
    ⟨s.queue ++ s.pending, by rw [← horder]; simp⟩
  exact List.prefix_iff_eq_take.mp hpre

/-- Witness for C2: with 3 jobs under limit 2, after jobs 0 and 1 are
admitted, job 2 waits, and job 0 finishes (waking job 2), the reached state
has 2 ≤ 2 jobs in flight and admission order [0, 1, 2] = submission
order. -/
theorem in_flight_never_exceeds_limit_and_admission_is_fifo_witness :
    semStateWitness.running.length ≤ 2
    ∧ semStateWitness.admitted
        = (List.range 3).take semStateWitness.admitted.length := by
  have h0 : SemReachable 2 3 (initSemState 2 3) := .init
  have h1 := SemReachable.step h0
    (SemStep.arriveAdmit (initSemState 2 3) 0 [1, 2] rfl (by decide))
  have h2 := SemReachable.step h1 (SemStep.arriveAdmit _ 1 [2] rfl (by decide))
  have h3 := SemReachable.step h2 (SemStep.arriveWait _ 2 [] rfl (by decide))
  have h4 := SemReachable.step h3
    (SemStep.finishWake _ 0 2 [] (by decide) (by decide))
  exact in_flight_never_exceeds_limit_and_admission_is_fifo 2 3
    semStateWitness h4

theorem semStep_zero_limit {s s' : SemState} (hstep : SemStep s s')
    (hadm : s.admitted = []) (hrun : s.running = []) (hval : s.value = 0) :
    s'.admitted = [] ∧ s'.running = [] ∧ s'.value = 0 := by
  cases hstep with
  | arriveAdmit j rest hp hv => omega
  | arriveWait j rest hp hv => exact ⟨hadm, hrun, hval⟩
  | finishWake j h t hj hq => rw [hrun] at hj; simp at hj
  | finishIdle j hj hq => rw [hrun] at hj; simp at hj

theorem semReachable_zero_limit (n : Nat) (s : SemState)
    (h : SemReachable 0 n s) :
    s.admitted = [] ∧ s.running = [] ∧ s.value = 0 := by
  induction h with
  | init => simp [initSemState]
  | step hs hstep ih =>
    exact semStep_zero_limit hstep ih.1 ih.2.1 ih.2.2

/-- C3 counterexample: with an empty batch (the images configuration is
empty, so `parse_image_list` yields no descriptor), the dispatcher does not
fail or no-op: it substitutes the hard-coded fallback descriptor and a job
workflow execution is admitted from the initial state (admission trace
[0]). -/
theorem empty_batch_starts_fallback_workflow :
    parse_image_list (fun _ => none) "source-bucket" "dest-bucket" "" = []
    ∧ run_batch_jobs (fun _ => none) envVarsNone ""
        = [fallbackImageSpec envVarsNone]
    ∧ SemStep
        (initSemState 5 (run_batch_jobs (fun _ => none) envVarsNone "").length)
        fallbackAdmittedState
    ∧ fallbackAdmittedState.admitted = [0] :=
  ⟨rfl, rfl,
   SemStep.arriveAdmit (initSemState 5 1) 0 [] rfl (by decide), rfl⟩

/-- C3 (amended): `run_batch_image_workflows` does no up-front
configuration validation.  When the parsed job list is empty it substitutes
the single hard-coded fallback descriptor (and proceeds to run it) instead
of failing or no-opping; a concurrency limit of 0 is accepted — no job is
ever admitted and the batch simply cannot progress, with no immediate
failure; and a descriptor missing a required locator field is not rejected
before admission: the batch still produces one result entry per submitted
job, the malformed one failing only at its own execution. -/
theorem no_upfront_configuration_validation
    (jsonLoads : String → Option (List ImageSpec)) (env : EnvVars)
    (outcome : Nat → Except PyErr String) :
    (∀ cfg, parse_image_list jsonLoads (env.SOURCE_BUCKET.getD "source-bucket")
          (env.DEST_BUCKET.getD "dest-bucket") cfg = [] →
        run_batch_jobs jsonLoads env cfg = [fallbackImageSpec env])
    ∧ (∀ n s, SemReachable 0 n s → s.admitted = [])
    ∧ ∀ jobs : List ImageSpec,
        (gatherResults jobs outcome).length = jobs.length := by
  refine ⟨?_, ?_, ?_⟩
  · intro cfg hempty
    simp [run_batch_jobs, hempty]
  · intro n s h
    exact (semReachable_zero_limit n s h).1
  · intro jobs
    simp [gatherResults]

/-- Witness for C3 (amended): with no environment variables set and an
empty images configuration, the job list is the single fallback descriptor;
with limit 0 the initial state of any batch has an empty admission trace;
and the malformed two-job batch still yields two result entries. -/
theorem no_upfront_configuration_validation_witness :
    run_batch_jobs (fun _ => none) envVarsNone ""
        = [fallbackImageSpec envVarsNone]
    ∧ (initSemState 0 4).admitted = []
    ∧ (gatherResults jobsWitness outcomeWitness).length = jobsWitness.length := by
  have h := no_upfront_configuration_validation (fun _ => none) envVarsNone
    outcomeWitness
  exact ⟨h.1 "" rfl, h.2.1 4 (initSemState 0 4) .init, h.2.2 jobsWitness⟩

theorem countResults_go (results : List BatchEntry) :
    ∀ a b : Nat,
      (results.foldl countStep (a, b)).1
          = a + (results.filter isSuccessEntry).length
      ∧ (results.foldl countStep (a, b)).1 + (results.foldl countStep (a, b)).2
          = a + b + results.length := by
  induction results with
  | nil => intro a b; simp
  | cons r rs ih =>
    intro a b
    rcases r with rec | e
    · by_cases hs : rec.status = .success
      · obtain ⟨h1, h2⟩ := ih (a + 1) b
        have hcs : countStep (a, b) (.record rec) = (a + 1, b) := by
          simp [countStep, hs]
        have hfilt : ((BatchEntry.record rec :: rs).filter isSuccessEntry)
            = .record rec :: rs.filter isSuccessEntry := by
          simp [isSuccessEntry, hs]
        rw [List.foldl_cons, hcs, hfilt]
        simp only [List.length_cons]
        exact ⟨by omega, by omega⟩
      · obtain ⟨h1, h2⟩ := ih a (b + 1)
        have hcs : countStep (a, b) (.record rec) = (a, b + 1) := by
          simp [countStep, hs]
        have hfilt : ((BatchEntry.record rec :: rs).filter isSuccessEntry)
            = rs.filter isSuccessEntry := by
          simp [isSuccessEntry, hs]
        rw [List.foldl_cons, hcs, hfilt]
        simp only [List.length_cons]
        exact ⟨by omega, by omega⟩
    · obtain ⟨h1, h2⟩ := ih a (b + 1)
      have hcs : countStep (a, b) (.exn e) = (a, b + 1) := rfl
      have hfilt : ((BatchEntry.exn e :: rs).filter isSuccessEntry)
          = rs.filter isSuccessEntry := by
        simp [isSuccessEntry]
      rw [List.foldl_cons, hcs, hfilt]
      simp only [List.length_cons]
      exact ⟨by omega, by omega⟩

theorem countResults_spec (results : List BatchEntry) :
    (countResults results).1 = (results.filter isSuccessEntry).length
    ∧ (countResults results).1 + (countResults results).2 = results.length := by
  have h := countResults_go results 0 0
  simpa [countResults] using h

theorem countResults_partition (results : List BatchEntry) :
    (countResults results).1 + (countResults results).2 = results.length :=
  (countResults_spec results).2

theorem run_single_error_classified (cfg : ImageSpec)
    (outcome : Except PyErr String) (e : PyErr)
    (h : run_single_image_workflow cfg outcome = .error e) :
    e.typeName = "KeyError" ∨ e.isBaseOnly = true := by
  unfold run_single_image_workflow at h
  repeat' split at h
  all_goals first
    | (injection h with h2; subst h2; left; rfl)
    | (injection h with h2; subst h2; right; assumption)
    | (injection h)

/-- C6 counterexample: a descriptor missing its `source_bucket` locator
raises `KeyError` before the `try:` block of `run_single_image_workflow`,
so the batch's result list carries the raw exception, not a failed
JobResult record — the claim that any fault of a job's execution is
converted into a failed JobResult record fails here. -/
theorem missing_locator_fault_not_converted_to_record :
    gatherResults [malformedSpec] (fun _ => .ok "done")
      = [BatchEntry.exn ⟨"KeyError", "source_bucket", false⟩] := rfl

/-- C6 (amended): the batch always runs to completion over all submitted
jobs (one result entry per job, no dispatcher abort), the summary's
succeeded and failed counts partition the full result list, and every fault
of a job's execution other than a pre-start `KeyError` (missing locator
field) or a `BaseException`-class fault is converted into a failed
JobResult record — an entry that is a raw exception can only be one of
those two kinds. -/
theorem faults_become_failed_records_and_counts_partition
    (jobs : List ImageSpec) (outcome : Nat → Except PyErr String) :
    (gatherResults jobs outcome).length = jobs.length
    ∧ (countResults (gatherResults jobs outcome)).1
          + (countResults (gatherResults jobs outcome)).2
        = (gatherResults jobs outcome).length
    ∧ ∀ entry ∈ gatherResults jobs outcome,
        match entry with
        | .record _ => True
        | .exn e => e.typeName = "KeyError" ∨ e.isBaseOnly = true := by
  refine ⟨by simp [gatherResults], countResults_partition _, ?_⟩
  intro entry hentry
  rcases List.mem_map.mp hentry with ⟨p, hp, rfl⟩
  rcases hr : run_single_image_workflow p.2 (outcome p.1) with e | r
  · simpa [hr] using run_single_error_classified p.2 (outcome p.1) e hr
  · simp [hr]

/-- Witness for C6 (amended): on the two-job batch with one RPC fault and
one malformed descriptor, the gather yields 2 entries, the summary counts
partition them (0 + 2 = 2), and the malformed job's raw-exception entry is
indeed a `KeyError`. -/
theorem faults_become_failed_records_and_counts_partition_witness :
    (gatherResults jobsWitness outcomeWitness).length = 2
    ∧ (countResults (gatherResults jobsWitness outcomeWitness)).1
          + (countResults (gatherResults jobsWitness outcomeWitness)).2
        = 2
    ∧ ((⟨"KeyError", "source_bucket", false⟩ : PyErr).typeName = "KeyError"
        ∨ (⟨"KeyError", "source_bucket", false⟩ : PyErr).isBaseOnly = true) := by
  have h := faults_become_failed_records_and_counts_partition jobsWitness
    outcomeWitness
  exact ⟨h.1, h.2.1,
    h.2.2 (.exn ⟨"KeyError", "source_bucket", false⟩) (by decide)⟩

/-- C7 counterexample: on a batch where 2 jobs failed, the driver exits
with code 1, which is not the count of failed jobs — the exit code is a
fixed non-zero value rather than one reflecting the failure count. -/
theorem exit_code_is_not_failure_count :
    mainExitCode twoFailures = 1
    ∧ (countResults twoFailures).2 = 2
    ∧ mainExitCode twoFailures ≠ (countResults twoFailures).2 := by
  refine ⟨rfl, rfl, ?_⟩
  decide

/-- C7 (amended): the driver process exits with code 0 when every job in
the batch succeeded, and with the fixed non-zero code 1 — regardless of how
many jobs failed — when at least one job failed. -/
theorem exit_code_zero_iff_no_failures (results : List BatchEntry) :
    mainExitCode results
      = if (countResults results).2 = 0 then 0 else 1 := by
  obtain ⟨h1, h2⟩ := countResults_spec results
  have hle : (results.filter isSuccessEntry).length ≤ results.length :=
    List.length_filter_le _ _
  by_cases hz : (countResults results).2 = 0
  · have he : (results.filter isSuccessEntry).length = results.length := by
      omega
    simp [mainExitCode, he, hz]
  · have hne : (results.filter isSuccessEntry).length ≠ results.length := by
      omega
    simp [mainExitCode, hne, hz]

theorem slash_enhanced_append (a c : String) :
    a ++ "/enhanced_" ++ c = (a ++ "/") ++ ("enhanced_" ++ c) := by
  rw [String.append_assoc, String.append_assoc]
  exact rfl

theorem commaImageSpec_dest_key (sb db k : String) :
    (commaImageSpec sb db k).dest_key
      = some ((if k.toList.contains '/' then pyDirname k ++ "/" else "")
          ++ ("enhanced_" ++ pyBasename k)) := by
  cases hsl : k.toList.contains '/'
  · have h2 : ¬ '/' ∈ k.data := by simpa using hsl
    simp [commaImageSpec, hsl, h2]
  · have h2 : '/' ∈ k.data := by simpa using hsl
    simp [commaImageSpec, hsl, h2]
    exact slash_enhanced_append (pyDirname k) (pyBasename k)

/-- C9: when the batch input is a delimited (comma-separated) list of
source identifiers, each kept identifier becomes a descriptor whose source
and destination buckets are the configured defaults and whose destination
key is the fixed prefix `enhanced_` prepended to the source's basename,
with any folder path of the source preserved in front of the prefixed
basename; an input that parses as a JSON array is instead returned as the
descriptor list directly. -/
theorem delimited_input_expands_to_enhanced_descriptors
    (jsonLoads : String → Option (List ImageSpec)) (sb db cfg : String) :
    (∀ xs, cfg ≠ "" → jsonLoads cfg = some xs →
        parse_image_list jsonLoads sb db cfg = xs)
    ∧ (jsonLoads cfg = none →
        ∀ d ∈ parse_image_list jsonLoads sb db cfg,
          d.source_bucket = some sb
          ∧ d.dest_bucket = some db
          ∧ ∀ k, d.source_key = some k →
              d.dest_key = some
                ((if k.toList.contains '/' then pyDirname k ++ "/" else "")
                  ++ ("enhanced_" ++ pyBasename k))) := by
  constructor
  · intro xs hne hj
    simp [parse_image_list, hne, hj]
  · intro hj d hd
    by_cases hne : cfg = ""
    · simp [parse_image_list, hne] at hd
    · simp only [parse_image_list, hne, hj, if_false] at hd
      rcases List.mem_map.mp hd with ⟨k, hk, rfl⟩
      refine ⟨rfl, rfl, ?_⟩
      intro k0 hk0
      have hkk : k = k0 := by simpa [commaImageSpec] using hk0
      subst hkk
      exact commaImageSpec_dest_key sb db k

/-- Witness for C9: with a JSON oracle that rejects the input, the comma
path turns `a.jpg, photos/b.png` into descriptors with the default buckets
and destination key `photos/enhanced_b.png` for the foldered source. -/
theorem delimited_input_expands_to_enhanced_descriptors_witness :
    specWitness9.source_bucket = some "source-bucket"
    ∧ specWitness9.dest_bucket = some "dest-bucket"
    ∧ specWitness9.dest_key = some "photos/enhanced_b.png" := by
  have h := (delimited_input_expands_to_enhanced_descriptors (fun _ => none)
    "source-bucket" "dest-bucket" "a.jpg, photos/b.png").2 rfl
    specWitness9 (by decide)
  refine ⟨h.1, h.2.1, ?_⟩
  have h3 := h.2.2 "photos/b.png" rfl
  rw [h3]
  rfl

/-- C10: an empty (or absent) images configuration yields an empty
descriptor list, and on the comma-separated path every entry that is empty
or whitespace-only after splitting is discarded, so every returned
descriptor carries a present, non-empty source key. -/
theorem blank_entries_discarded_nonempty_source_keys
    (jsonLoads : String → Option (List ImageSpec)) (sb db cfg : String) :
    (cfg = "" → parse_image_list jsonLoads sb db cfg = [])
    ∧ (jsonLoads cfg = none →
        ∀ d ∈ parse_image_list jsonLoads sb db cfg,
          d.source_key.isSome = true ∧ d.source_key ≠ some "") := by
  constructor
  · intro h
    simp [parse_image_list, h]
  · intro hj d hd
    by_cases hne : cfg = ""
    · simp [parse_image_list, hne] at hd
    · simp only [parse_image_list, hne, hj, if_false] at hd
      rcases List.mem_map.mp hd with ⟨k, hk, rfl⟩
      rcases List.mem_filterMap.mp hk with ⟨key, hkey, hkk⟩
      by_cases hz : pyStrip key = ""
      · rw [if_pos hz] at hkk
        exact absurd hkk (by simp)
      · rw [if_neg hz] at hkk
        have hks : k = pyStrip key := by
          injection hkk with h2
          exact h2.symm
        subst hks
        exact ⟨rfl, by simpa [commaImageSpec] using hz⟩

/-- Witness for C10: the empty configuration yields no descriptors, and in
the parse of `" , x.jpg ,"` (two blank entries discarded) the surviving
descriptor's source key is present and non-empty. -/
theorem blank_entries_discarded_nonempty_source_keys_witness :
    parse_image_list (fun _ => none) "sb" "db" "" = []
    ∧ specWitness10.source_key.isSome = true
    ∧ specWitness10.source_key ≠ some "" := by
  have h := blank_entries_discarded_nonempty_source_keys
    (fun _ => none) "sb" "db" ""
  have h2 := (blank_entries_discarded_nonempty_source_keys
    (fun _ => none) "sb" "db" " , x.jpg ,").2 rfl specWitness10 (by decide)
  exact ⟨h.1 rfl, h2.1, h2.2⟩

end ImageEnhancer
